import Mathlib

/-!
Verification of the Tulip persona / bot-interaction feature set.

The definitions in the first half of this file are a shallow embedding of
the TypeScript sources:
  - web/src/personas.ts          (client persona cache and compose selection)
  - web/src/compose_persona.ts   (compose-box persona selector)
  - the whisper-recipient pill modules (puppet-aware and plain)
  - the theater Dialogue component (sender header condition)
Server-side parts of this repository (the queue worker, the persona CRUD
endpoint, interaction-id consumption, the isConsecutive grouping) are not
in the source tree; those are modelled from the specification and are
marked `Modelled from the spec:` in their doc comments.

TypeScript numbers standing for database ids are embedded as Nat; the
value `number | null` is embedded as `Option Nat` (none = null); a
`Map<number, number | null>` is embedded as a function
`Nat -> Option (Option Nat)` (none = key absent).
-/

namespace Tulip

/-! ## Data model: personas.ts -/

/-- `MyPersona` from web/src/personas.ts (the current user's personas). -/
structure MyPersona where
  id : Nat
  name : String
  avatar_url : Option String
  color : Option String
  bio : String
  is_active : Bool
  date_created : Nat
deriving DecidableEq, Repr

/-- The module-level mutable state of web/src/personas.ts that the claims
concern: the fetched persona list, the fetched flag, the per-stream sticky
map `compose_persona_by_stream`, and `current_compose_persona_id`. -/
structure PersonasState where
  my_personas : List MyPersona
  my_personas_fetched : Bool
  compose_persona_by_stream : Nat → Option (Option Nat)
  current_compose_persona_id : Option Nat

/-- The initial values of the module-level variables of personas.ts
(empty caches, empty sticky map, selection null). -/
def initial_personas_state : PersonasState where
  my_personas := []
  my_personas_fetched := false
  compose_persona_by_stream := fun _ => none
  current_compose_persona_id := none

/-- `get_compose_persona_id` from personas.ts. -/
def get_compose_persona_id (st : PersonasState) : Option Nat :=
  st.current_compose_persona_id

/-- `set_compose_persona_id(persona_id, stream_id?)` from personas.ts:
sets the current selection and, when a stream id is given, records it in
the sticky map. -/
def set_compose_persona_id (persona_id : Option Nat) (stream_id : Option Nat)
    (st : PersonasState) : PersonasState :=
  let st1 := { st with current_compose_persona_id := persona_id }
  match stream_id with
  | none => st1
  | some s =>
      { st1 with
        compose_persona_by_stream :=
          fun t => if t = s then some persona_id else st1.compose_persona_by_stream t }

/-- `get_sticky_persona_for_stream` from personas.ts:
`compose_persona_by_stream.get(stream_id) ?? null`. -/
def get_sticky_persona_for_stream (stream_id : Nat) (st : PersonasState) : Option Nat :=
  (st.compose_persona_by_stream stream_id).getD none

/-- The persona event payload handled by `handle_persona_event` in
personas.ts: an op string plus optional persona / persona_id fields. -/
structure PersonaEvent where
  op : String
  persona : Option MyPersona
  persona_id : Option Nat

/-- `handle_persona_event` from personas.ts.  The "remove" branch guards
on JavaScript truthiness of `event.persona_id`, so an id of 0 is treated
as absent.  The "update" branch replaces the entry at the first index
whose id matches, as `findIndex` does. -/
def handle_persona_event (event : PersonaEvent) (st : PersonasState) : PersonasState :=
  if event.op = "add" then
    match event.persona with
    | some p => { st with my_personas := st.my_personas ++ [p] }
    | none => st
  else if event.op = "update" then
    match event.persona with
    | some p =>
        match st.my_personas.findIdx? (fun q => q.id == p.id) with
        | some idx => { st with my_personas := st.my_personas.set idx p }
        | none => st
    | none => st
  else if event.op = "remove" then
    match event.persona_id with
    | some pid =>
        if pid = 0 then st
        else
          let st1 := { st with my_personas := st.my_personas.filter (fun p => p.id != pid) }
          if st1.current_compose_persona_id = some pid then
            { st1 with current_compose_persona_id := none }
          else st1
    | none => st
  else st

/-! ## Compose-box selector: compose_persona.ts -/

/-- The state compose_persona.ts manipulates: the personas module state,
whether `#compose-persona-selector` is shown, and the compose box's
current stream id (`compose_state.stream_id()`). -/
structure ComposeUIState where
  personas : PersonasState
  selector_visible : Bool
  compose_stream_id : Option Nat

/-- `update_selector_display` from compose_persona.ts, restricted to its
state effect: when the selected persona id is no longer in
`get_my_personas()`, it calls `set_current_persona_id(null)`, which
resets the selection (the purely visual jQuery updates are not state).
The recursive call made by that reset is a no-op because the selection is
already null, so it is inlined here as the plain assignment. -/
def update_selector_display (st : ComposeUIState) : ComposeUIState :=
  match st.personas.current_compose_persona_id with
  | none => st
  | some pid =>
      match st.personas.my_personas.find? (fun p => p.id == pid) with
      | some _ => st
      | none =>
          { st with
            personas := set_compose_persona_id none st.compose_stream_id st.personas }

/-- `set_current_persona_id` from compose_persona.ts: updates the sticky
selection for the current stream, then refreshes the selector display. -/
def set_current_persona_id (persona_id : Option Nat) (st : ComposeUIState) : ComposeUIState :=
  update_selector_display
    { st with personas := set_compose_persona_id persona_id st.compose_stream_id st.personas }

/-- `show_selector` from compose_persona.ts. -/
def show_selector (st : ComposeUIState) : ComposeUIState :=
  { st with selector_visible := true }

/-- `hide_selector` from compose_persona.ts. -/
def hide_selector (st : ComposeUIState) : ComposeUIState :=
  { st with selector_visible := false }

/-- `update_for_stream` from compose_persona.ts.  The branch that fires
an asynchronous fetch when the persona list has not been fetched yet is
outside this state model (it re-enters `update_for_stream` from a network
callback); it is embedded as the identity, and the theorems about this
function assume the list has been fetched. -/
def update_for_stream (stream_id : Option Nat) (st : ComposeUIState) : ComposeUIState :=
  match stream_id with
  | none =>
      if st.personas.my_personas.length > 0 then show_selector st else hide_selector st
  | some sid =>
      if st.personas.my_personas_fetched = false then st
      else if st.personas.my_personas.length = 0 then hide_selector st
      else
        let st1 := show_selector st
        let st2 :=
          match get_sticky_persona_for_stream sid st1.personas with
          | some pid =>
              { st1 with
                personas := set_compose_persona_id (some pid) (some sid) st1.personas }
          | none => st1
        update_selector_display st2

/-- A faithful model of JavaScript `Array.prototype.findIndex`: the index
of the first element satisfying the predicate (none for -1). -/
def find_index (pred : MyPersona → Bool) : List MyPersona → Option Nat
  | [] => none
  | p :: rest => if pred p then some 0 else (find_index pred rest).map (· + 1)

/-- `cycle_persona` from compose_persona.ts: Yourself → first persona →
… → last persona → Yourself.  The out-of-bounds lookup branch is
unreachable (the index is strictly below the last index there) and is
embedded as the identity. -/
def cycle_persona (st : ComposeUIState) : ComposeUIState :=
  match st.personas.my_personas with
  | [] => st
  | p :: _ =>
      match st.personas.current_compose_persona_id with
      | none => set_current_persona_id (some p.id) st
      | some cur =>
          match find_index (fun q => q.id == cur) st.personas.my_personas with
          | none => set_current_persona_id none st
          | some i =>
              if i = st.personas.my_personas.length - 1 then
                set_current_persona_id none st
              else
                match st.personas.my_personas[i + 1]? with
                | some q => set_current_persona_id (some q.id) st
                | none => st

/-! ## Whisper-recipient pill modules (puppet-aware and plain)

From the two modules in the source that manage the `#whisper_recipient`
pill input.  The upstream helpers (`people`, `user_groups`,
`user_pill.append_person`, `user_group_pill.append_user_group`,
`compose_state.set_whisper_recipients`) are shared by both modules; they
are embedded once and used by both embeddings. -/

/-- A realm user, as far as the pill modules look at one. -/
structure Person where
  user_id : Nat
  full_name : String
deriving DecidableEq, Repr

/-- A realm user group, as far as the pill modules look at one. -/
structure UserGroup where
  group_id : Nat
  group_name : String
deriving DecidableEq, Repr

/-- `StreamPuppet` from stream_puppets.ts. -/
structure StreamPuppet where
  id : Nat
  name : String
  avatar_url : Option String
deriving DecidableEq, Repr

/-- The lookup environment both pill modules consult: the people
registry, the user-group registry, and the per-stream puppet cache. -/
structure PillEnv where
  users : List Person
  groups : List UserGroup
  stream_puppets : Nat → List StreamPuppet

/-- A pill in the whisper-recipient widget.  The plain module only ever
creates the `user` and `user_group` cases (`CombinedPill`); the
puppet-aware module adds the `puppet` case (`WhisperPill`). -/
inductive WhisperPill where
  | user (user_id : Nat)
  | user_group (group_id : Nat)
  | puppet (puppet_id : Nat) (puppet_name : String)
deriving DecidableEq, Repr

/-- The state a whisper pill module manipulates: the widget's pill list,
the module's `current_stream_id` (puppet-aware module only; the plain
module never reads or writes it), and the whisper recipients stored in
compose_state as (user_ids, group_ids, puppet_ids). -/
structure WhisperState where
  pills : List WhisperPill
  current_stream_id : Option Nat
  compose_recipients : List Nat × List Nat × List Nat
deriving DecidableEq, Repr

/-- `compose_state.set_whisper_recipients`.  The plain module calls it
with two arguments; its puppet_ids parameter then takes its default
value `[]`, which the two-argument call sites below pass explicitly. -/
def set_whisper_recipients (user_ids group_ids puppet_ids : List Nat)
    (st : WhisperState) : WhisperState :=
  { st with compose_recipients := (user_ids, group_ids, puppet_ids) }

/-- `people.maybe_get_user_by_id`. -/
def maybe_get_user_by_id (env : PillEnv) (user_id : Nat) : Option Person :=
  env.users.find? (fun u => u.user_id == user_id)

/-- `user_groups.maybe_get_user_group_from_id`. -/
def maybe_get_user_group_from_id (env : PillEnv) (group_id : Nat) : Option UserGroup :=
  env.groups.find? (fun g => g.group_id == group_id)

namespace PuppetAware

/-- `set_from_user_ids` of the puppet-aware module: for each id, append a
user pill when the person exists. -/
def set_from_user_ids (env : PillEnv) (user_ids : List Nat) (st : WhisperState) :
    WhisperState :=
  user_ids.foldl
    (fun acc uid =>
      match maybe_get_user_by_id env uid with
      | some person => { acc with pills := acc.pills ++ [WhisperPill.user person.user_id] }
      | none => acc)
    st

/-- `set_from_group_ids` of the puppet-aware module. -/
def set_from_group_ids (env : PillEnv) (group_ids : List Nat) (st : WhisperState) :
    WhisperState :=
  group_ids.foldl
    (fun acc gid =>
      match maybe_get_user_group_from_id env gid with
      | some group => { acc with pills := acc.pills ++ [WhisperPill.user_group group.group_id] }
      | none => acc)
    st

/-- `set_from_puppet_ids` of the puppet-aware module: a no-op without a
current stream; otherwise appends a puppet pill for each id found in the
stream's puppet cache. -/
def set_from_puppet_ids (env : PillEnv) (puppet_ids : List Nat) (st : WhisperState) :
    WhisperState :=
  match st.current_stream_id with
  | none => st
  | some sid =>
      puppet_ids.foldl
        (fun acc pid =>
          match (env.stream_puppets sid).find? (fun p => p.id == pid) with
          | some puppet =>
              { acc with pills := acc.pills ++ [WhisperPill.puppet puppet.id puppet.name] }
          | none => acc)
        st

/-- `set_from_all_ids` of the puppet-aware module: clear the widget, add
users, groups and puppets, then update compose state. -/
def set_from_all_ids (env : PillEnv) (user_ids group_ids puppet_ids : List Nat)
    (st : WhisperState) : WhisperState :=
  let st1 := { st with pills := [] }
  let st2 := set_from_user_ids env user_ids st1
  let st3 := set_from_group_ids env group_ids st2
  let st4 := set_from_puppet_ids env puppet_ids st3
  set_whisper_recipients user_ids group_ids puppet_ids st4

/-- `set_from_user_and_group_ids` of the puppet-aware module (the
backward-compatibility alias). -/
def set_from_user_and_group_ids (env : PillEnv) (user_ids group_ids : List Nat)
    (st : WhisperState) : WhisperState :=
  set_from_all_ids env user_ids group_ids [] st

end PuppetAware

namespace PlainPill

/-- `set_from_user_ids` of the plain user/group module. -/
def set_from_user_ids (env : PillEnv) (user_ids : List Nat) (st : WhisperState) :
    WhisperState :=
  user_ids.foldl
    (fun acc uid =>
      match maybe_get_user_by_id env uid with
      | some person => { acc with pills := acc.pills ++ [WhisperPill.user person.user_id] }
      | none => acc)
    st

/-- `set_from_group_ids` of the plain user/group module. -/
def set_from_group_ids (env : PillEnv) (group_ids : List Nat) (st : WhisperState) :
    WhisperState :=
  group_ids.foldl
    (fun acc gid =>
      match maybe_get_user_group_from_id env gid with
      | some group => { acc with pills := acc.pills ++ [WhisperPill.user_group group.group_id] }
      | none => acc)
    st

/-- `set_from_user_and_group_ids` of the plain user/group module: clear,
add users, add groups, then update compose state with the two-argument
`set_whisper_recipients` call (puppet_ids defaulting to empty). -/
def set_from_user_and_group_ids (env : PillEnv) (user_ids group_ids : List Nat)
    (st : WhisperState) : WhisperState :=
  let st1 := { st with pills := [] }
  let st2 := set_from_user_ids env user_ids st1
  let st3 := set_from_group_ids env group_ids st2
  set_whisper_recipients user_ids group_ids [] st3

end PlainPill

/-! ## Webhook contract and dispatch (claim C1)

The request shape is `CommandInvocationRequest` from the e2e test file.
The dispatch itself (browser submit endpoint, queue, worker POST) is
server code that is not in the source tree. -/

/-- The `user` object of `CommandInvocationRequest` in the e2e tests. -/
structure WebhookUser where
  id : Nat
  email : String
  full_name : String
deriving DecidableEq, Repr

/-- `CommandInvocationRequest` from the bot command e2e tests: the JSON
body of the outgoing webhook POST.  The string-to-string `arguments`
record is embedded as an association list. -/
structure CommandInvocationRequest where
  type : String
  command : String
  arguments : List (String × String)
  interaction_id : String
  user : WebhookUser
deriving DecidableEq, Repr

/-- An interaction event of the dispatch pipeline (command invocations
are the case the claims exercise). -/
inductive InteractionEvent where
  | command_invocation (command : String) (arguments : List (String × String))
      (interaction_id : String) (user : WebhookUser)
deriving DecidableEq, Repr

/-- Modelled from the spec: the submit path that converts one filled-in
slash-command submission into interaction events (the server endpoint is
not under src/).  One submission enqueues exactly one
command-invocation event carrying the registered command name and the
entered argument values. -/
def submit_filled_command (registered_command : String)
    (entered_arguments : List (String × String)) (interaction_id : String)
    (user : WebhookUser) : List InteractionEvent :=
  [InteractionEvent.command_invocation registered_command entered_arguments
      interaction_id user]

/-- Modelled from the spec: the queue worker's conversion of one
dequeued event into webhook POST bodies (the worker is not under src/).
A command-invocation event becomes one POST whose JSON body carries
`type`, `command`, `arguments`, `interaction_id` and `user`. -/
def webhook_posts_for_event : InteractionEvent → List CommandInvocationRequest
  | InteractionEvent.command_invocation c a i u =>
      [{ type := "command_invocation", command := c, arguments := a,
         interaction_id := i, user := u }]

/-- The webhook POSTs produced end to end for one submission. -/
def webhook_posts_for_submission (registered_command : String)
    (entered_arguments : List (String × String)) (interaction_id : String)
    (user : WebhookUser) : List CommandInvocationRequest :=
  (submit_filled_command registered_command entered_arguments interaction_id user).flatMap
    webhook_posts_for_event

/-! ## Queue delivery (claim C2) -/

/-- Modelled from the spec: the host-framework queue that delivers
interaction events to a bot's registered webhook or embedded handler (the
worker code is not under src/).  Events are processed in enqueue order;
handing an event to the bot may be retried, so each event is delivered
`retries i + 1` times — at least once. -/
def deliver_queue {α : Type} : List α → (Nat → Nat) → List α
  | [], _ => []
  | e :: rest, retries =>
      List.replicate (retries 0 + 1) e ++ deliver_queue rest (fun i => retries (i + 1))

/-! ## Server-side persona creation (claim C3) -/

/-- A persona record as the persona CRUD endpoint stores it. -/
structure ServerPersona where
  id : Nat
  name : String
deriving DecidableEq, Repr

/-- Modelled from the spec: the `/json/users/me/personas` POST handler
(not under src/).  Persona names are unique per owning user: creating a
name the user already owns fails with the duplicate-name error the e2e
test expects; otherwise the persona is appended. -/
def create_persona (owned : List ServerPersona) (new_id : Nat) (new_name : String) :
    Except String (List ServerPersona) :=
  if owned.any (fun p => p.name == new_name) then
    Except.error "You already have a persona with this name."
  else
    Except.ok (owned ++ [{ id := new_id, name := new_name }])

/-- The owned persona set after a create attempt: unchanged when the
attempt failed. -/
def personas_after_create (owned : List ServerPersona) (new_id : Nat)
    (new_name : String) : List ServerPersona :=
  match create_persona owned new_id new_name with
  | Except.ok updated => updated
  | Except.error _ => owned

/-! ## Interaction-id consumption (claim C4) -/

/-- Modelled from the spec: the responding bot's consumption of an
interaction id (not under src/).  The server keeps the set of already
consumed ids; consuming an id a second time is rejected. -/
def consume_interaction (consumed : List String) (interaction_id : String) :
    Except String (List String) :=
  if interaction_id ∈ consumed then Except.error "interaction already consumed"
  else Except.ok (interaction_id :: consumed)

/-- An arbitrary run of later consumption attempts, performed in order:
a successful attempt extends the consumed set, a rejected attempt leaves
it unchanged.  Any state the server can reach after a consumption is
`consume_run` of some attempt list. -/
def consume_run (consumed : List String) : List String → List String
  | [] => consumed
  | iid :: rest =>
      match consume_interaction consumed iid with
      | Except.ok consumed' => consume_run consumed' rest
      | Except.error _ => consume_run consumed rest

/-! ## Sender headers for persona messages (claim C5) -/

/-- A message on the stage, as far as sender grouping looks at it: the
real sender and the persona (none = posted as yourself). -/
structure StageMessage where
  id : Nat
  sender_user_id : Nat
  persona_id : Option Nat
deriving DecidableEq, Repr

/-- Modelled from the spec: the grouping computation that feeds the
`isConsecutive` prop of the Dialogue component (not under src/).  A
message is consecutive exactly when the previous message exists and was
sent under the same identity — same real sender and same persona. -/
def is_consecutive (prev : Option StageMessage) (m : StageMessage) : Bool :=
  match prev with
  | none => false
  | some q => (q.sender_user_id == m.sender_user_id) && (q.persona_id == m.persona_id)

/-- From the Dialogue component: the sender header is rendered exactly
when `showSpeaker && !isConsecutive`. -/
def dialogue_shows_header (showSpeaker isConsecutive : Bool) : Bool :=
  showSpeaker && !isConsecutive

/-- Header flags for a message list, recomputed from scratch with a given
predecessor — what a page reload renders from the fetched history. -/
def header_flags : Option StageMessage → List StageMessage → List Bool
  | _, [] => []
  | prev, m :: rest =>
      dialogue_shows_header true (is_consecutive prev m) :: header_flags (some m) rest

/-- The header flags of a full topic as rendered from scratch. -/
def render_headers (msgs : List StageMessage) : List Bool :=
  header_flags none msgs

/-- Appending one newly arrived message to an already rendered list: its
header flag is computed against the currently last rendered message. -/
def append_message (rendered : List (StageMessage × Bool)) (m : StageMessage) :
    List (StageMessage × Bool) :=
  rendered ++ [(m, dialogue_shows_header true (is_consecutive (rendered.getLast?.map Prod.fst) m))]

/-- The rendering built up incrementally as messages arrive one by one —
what the client shows before a reload. -/
def render_incremental (msgs : List StageMessage) : List (StageMessage × Bool) :=
  msgs.foldl append_message []

/-! ## Derived definitions and concrete states used by the proofs -/

/-- The selection-level behavior of `cycle_persona`: how one invocation
maps the current selection, for a fixed persona list.  Proved below to
agree with the stateful `cycle_persona`. -/
def cycle_selection (my : List MyPersona) (cur : Option Nat) : Option Nat :=
  match my with
  | [] => cur
  | p :: _ =>
      match cur with
      | none => some p.id
      | some c =>
          match find_index (fun q => q.id == c) my with
          | none => none
          | some i =>
              if i = my.length - 1 then none
              else
                match my[i + 1]? with
                | some q => some q.id
                | none => some c

/-- A concrete persona used by the witness states. -/
def mk_demo_persona (i : Nat) (n : String) : MyPersona :=
  { id := i, name := n, avatar_url := none, color := none, bio := "",
    is_active := true, date_created := 0 }

/-- A concrete compose state with two personas and no selection. -/
def demo_compose_state : ComposeUIState :=
  { personas :=
      { my_personas := [mk_demo_persona 7 "Gandalf the White", mk_demo_persona 9 "Frodo Baggins"]
        my_personas_fetched := true
        compose_persona_by_stream := fun _ => none
        current_compose_persona_id := none }
    selector_visible := false
    compose_stream_id := some 3 }

/-- A concrete compose state whose selection points at a persona id (9)
that is not in the persona list. -/
def demo_dangling_state : ComposeUIState :=
  { personas :=
      { my_personas := [mk_demo_persona 7 "Gandalf the White"]
        my_personas_fetched := true
        compose_persona_by_stream := fun _ => none
        current_compose_persona_id := some 9 }
    selector_visible := true
    compose_stream_id := some 3 }

/-- A concrete personas-module state selecting persona 9, which is in
the list. -/
def demo_personas_state : PersonasState :=
  { my_personas := [mk_demo_persona 7 "Gandalf the White", mk_demo_persona 9 "Frodo Baggins"]
    my_personas_fetched := true
    compose_persona_by_stream := fun _ => none
    current_compose_persona_id := some 9 }

/-- A concrete compose state with a fetched, empty persona list. -/
def demo_no_personas_state : ComposeUIState :=
  { personas :=
      { my_personas := []
        my_personas_fetched := true
        compose_persona_by_stream := fun _ => none
        current_compose_persona_id := none }
    selector_visible := true
    compose_stream_id := some 3 }

/-- Concrete stage messages mirroring the e2e collapse test: self,
Gandalf, Frodo, self, Gandalf — all sent by user 10. -/
def demo_stage_messages : List StageMessage :=
  [⟨1, 10, none⟩, ⟨2, 10, some 7⟩, ⟨3, 10, some 9⟩, ⟨4, 10, none⟩, ⟨5, 10, some 7⟩]

/-! ## Basic lemmas about the embedded operations -/

theorem set_compose_persona_id_current (p sid : Option Nat) (st : PersonasState) :
    (set_compose_persona_id p sid st).current_compose_persona_id = p := by
  cases sid <;> rfl

theorem set_compose_persona_id_my (p sid : Option Nat) (st : PersonasState) :
    (set_compose_persona_id p sid st).my_personas = st.my_personas := by
  cases sid <;> rfl

theorem update_selector_display_of_none (st : ComposeUIState)
    (h : st.personas.current_compose_persona_id = none) :
    update_selector_display st = st := by
  unfold update_selector_display
  simp only [h]

theorem update_selector_display_of_found (st : ComposeUIState) (pid : Nat) (q : MyPersona)
    (h : st.personas.current_compose_persona_id = some pid)
    (hf : st.personas.my_personas.find? (fun p => p.id == pid) = some q) :
    update_selector_display st = st := by
  unfold update_selector_display
  simp only [h, hf]

theorem update_selector_display_of_missing (st : ComposeUIState) (pid : Nat)
    (h : st.personas.current_compose_persona_id = some pid)
    (hf : st.personas.my_personas.find? (fun p => p.id == pid) = none) :
    update_selector_display st
      = { st with personas := set_compose_persona_id none st.compose_stream_id st.personas } := by
  unfold update_selector_display
  simp only [h, hf]

theorem update_selector_display_my (st : ComposeUIState) :
    (update_selector_display st).personas.my_personas = st.personas.my_personas := by
  cases h : st.personas.current_compose_persona_id with
  | none => rw [update_selector_display_of_none st h]
  | some pid =>
      cases hf : st.personas.my_personas.find? (fun p => p.id == pid) with
      | none =>
          rw [update_selector_display_of_missing st pid h hf]
          exact set_compose_persona_id_my _ _ _
      | some q => rw [update_selector_display_of_found st pid q h hf]

theorem update_selector_display_selector_visible (st : ComposeUIState) :
    (update_selector_display st).selector_visible = st.selector_visible := by
  cases h : st.personas.current_compose_persona_id with
  | none => rw [update_selector_display_of_none st h]
  | some pid =>
      cases hf : st.personas.my_personas.find? (fun p => p.id == pid) with
      | none => rw [update_selector_display_of_missing st pid h hf]
      | some q => rw [update_selector_display_of_found st pid q h hf]

theorem set_current_persona_id_my (v : Option Nat) (st : ComposeUIState) :
    (set_current_persona_id v st).personas.my_personas = st.personas.my_personas := by
  unfold set_current_persona_id
  rw [update_selector_display_my]
  exact set_compose_persona_id_my _ _ _

theorem set_current_persona_id_selection_none (st : ComposeUIState) :
    (set_current_persona_id none st).personas.current_compose_persona_id = none := by
  unfold set_current_persona_id
  rw [update_selector_display_of_none _ (set_compose_persona_id_current _ _ _)]
  exact set_compose_persona_id_current _ _ _

theorem set_current_persona_id_selection_some (st : ComposeUIState) (pid : Nat)
    (hmem : ∃ p ∈ st.personas.my_personas, p.id = pid) :
    (set_current_persona_id (some pid) st).personas.current_compose_persona_id = some pid := by
  unfold set_current_persona_id
  obtain ⟨p, hp, hid⟩ := hmem
  have hsome : ((set_compose_persona_id (some pid) st.compose_stream_id
      st.personas).my_personas.find? (fun q => q.id == pid)).isSome := by
    rw [set_compose_persona_id_my]
    rw [List.find?_isSome]
    exact ⟨p, hp, by simp [hid]⟩
  obtain ⟨q, hq⟩ := Option.isSome_iff_exists.mp hsome
  rw [update_selector_display_of_found _ pid q (set_compose_persona_id_current _ _ _) hq]
  exact set_compose_persona_id_current _ _ _

/-! ## Claim C1: command invocation webhook contract -/

/-- C1: a filled-in slash command submission produces exactly one webhook
POST of type `command_invocation`, whose JSON body carries the fields
`type`, `command`, `arguments`, `interaction_id` and `user`, with the
command equal to the registered command name and the arguments equal to
the values the user entered. -/
theorem command_invocation_webhook_contract (registered_command : String)
    (entered_arguments : List (String × String)) (interaction_id : String)
    (user : WebhookUser) :
    webhook_posts_for_submission registered_command entered_arguments interaction_id user
      = [{ type := "command_invocation", command := registered_command,
           arguments := entered_arguments, interaction_id := interaction_id,
           user := user }] := rfl

/-! ## Claim C2: queue delivery, at least once, in enqueue order -/

/-- C2: every event enqueued for a bot is delivered at least once, and
deliveries occur in enqueue order: the enqueued sequence embeds, in
order, into the delivery log (each enqueued occurrence maps to a
delivery), and every enqueued event occurs in the log. -/
theorem queue_delivery_at_least_once_in_order {α : Type} (queue : List α)
    (retries : Nat → Nat) :
    List.Sublist queue (deliver_queue queue retries)
    ∧ ∀ e ∈ queue, e ∈ deliver_queue queue retries := by
  have hsub : List.Sublist queue (deliver_queue queue retries) := by
    induction queue generalizing retries with
    | nil => exact List.Sublist.refl []
    | cons e rest ih =>
        show List.Sublist (e :: rest)
          (List.replicate (retries 0 + 1) e ++ deliver_queue rest (fun i => retries (i + 1)))
        have hrep : List.replicate (retries 0 + 1) e = e :: List.replicate (retries 0) e := rfl
        rw [hrep, List.cons_append]
        exact List.Sublist.cons₂ e
          ((ih _).trans (List.sublist_append_right _ _))
  exact ⟨hsub, fun e he => hsub.subset he⟩

/-- Witness for C2 at a concrete queue and retry schedule. -/
theorem queue_delivery_at_least_once_in_order_witness :
    2 ∈ deliver_queue [1, 2, 3] (fun _ => 1) :=
  (queue_delivery_at_least_once_in_order [1, 2, 3] (fun _ => 1)).2 2 (by decide)

/-! ## Claim C3: duplicate persona names are rejected -/

/-- C3: creating a persona with a name the user already owns fails with
the duplicate-name error, and the owned persona set is unchanged by the
failed attempt. -/
theorem duplicate_persona_name_rejected (owned : List ServerPersona) (new_id : Nat)
    (new_name : String) (h : ∃ p ∈ owned, p.name = new_name) :
    create_persona owned new_id new_name
        = Except.error "You already have a persona with this name."
    ∧ personas_after_create owned new_id new_name = owned := by
  have hany : owned.any (fun p => p.name == new_name) = true := by
    obtain ⟨p, hp, hn⟩ := h
    exact List.any_eq_true.mpr ⟨p, hp, by simp [hn]⟩
  constructor
  · simp [create_persona, hany]
  · simp [personas_after_create, create_persona, hany]

/-- Witness for C3: a second "Aragorn" is rejected and the set keeps only
the first. -/
theorem duplicate_persona_name_rejected_witness :
    create_persona [{ id := 1, name := "Aragorn" }] 2 "Aragorn"
        = Except.error "You already have a persona with this name."
    ∧ personas_after_create [{ id := 1, name := "Aragorn" }] 2 "Aragorn"
        = [{ id := 1, name := "Aragorn" }] :=
  duplicate_persona_name_rejected [{ id := 1, name := "Aragorn" }] 2 "Aragorn"
    ⟨{ id := 1, name := "Aragorn" }, by simp, rfl⟩

/-! ## Claim C4: an interaction id is consumed at most once -/

theorem mem_consume_run (others : List String) :
    ∀ (consumed : List String) (iid : String), iid ∈ consumed →
      iid ∈ consume_run consumed others := by
  induction others with
  | nil => intro consumed iid h; exact h
  | cons o rest ih =>
      intro consumed iid h
      unfold consume_run
      split
      · rename_i consumed' hc
        apply ih
        by_cases hmem : o ∈ consumed
        · simp [consume_interaction, hmem] at hc
        · simp [consume_interaction, hmem] at hc
          rw [← hc]
          exact List.mem_cons_of_mem _ h
      · exact ih _ _ h

/-- C4: once the responding bot has consumed an interaction id, no
second consumption of that id is ever accepted: after any further run of
consumption attempts — arbitrarily many, successful or rejected —
consuming the same id again is rejected. -/
theorem interaction_id_consumed_at_most_once (consumed consumed1 : List String)
    (interaction_id : String)
    (h : consume_interaction consumed interaction_id = Except.ok consumed1) :
    ∀ others : List String,
      consume_interaction (consume_run consumed1 others) interaction_id
        = Except.error "interaction already consumed" := by
  have hmem : interaction_id ∈ consumed1 := by
    by_cases hc : interaction_id ∈ consumed
    · simp [consume_interaction, hc] at h
    · simp [consume_interaction, hc] at h
      rw [← h]
      exact List.mem_cons_self _ _
  intro others
  simp [consume_interaction, mem_consume_run others consumed1 interaction_id hmem]

/-- Witness for C4 at a concrete id: immediate re-consumption (empty
run) and re-consumption after a later run that consumes another id and
makes one rejected attempt are both refused. -/
theorem interaction_id_consumed_at_most_once_witness :
    consume_interaction (consume_run ["interaction-1"] []) "interaction-1"
        = Except.error "interaction already consumed"
    ∧ consume_interaction
        (consume_run ["interaction-1"] ["interaction-2", "interaction-1", "interaction-3"])
        "interaction-1"
        = Except.error "interaction already consumed" :=
  ⟨interaction_id_consumed_at_most_once [] ["interaction-1"] "interaction-1"
      (by simp [consume_interaction]) [],
   interaction_id_consumed_at_most_once [] ["interaction-1"] "interaction-1"
      (by simp [consume_interaction]) ["interaction-2", "interaction-1", "interaction-3"]⟩

/-! ## Claim C9: per-stream sticky persona selection -/

/-- C9: after `set_compose_persona_id p (some s)`, the sticky value of
stream `s` is `p`, the sticky value of every other stream is unchanged,
and a stream for which nothing was ever set reads null. -/
theorem sticky_persona_frame (st : PersonasState) (p : Option Nat) (s t : Nat)
    (hts : t ≠ s) :
    get_sticky_persona_for_stream s (set_compose_persona_id p (some s) st) = p
    ∧ get_sticky_persona_for_stream t (set_compose_persona_id p (some s) st)
        = get_sticky_persona_for_stream t st
    ∧ ∀ u : Nat, get_sticky_persona_for_stream u initial_personas_state = none := by
  refine ⟨?_, ?_, fun u => rfl⟩
  · simp [get_sticky_persona_for_stream, set_compose_persona_id]
  · simp [get_sticky_persona_for_stream, set_compose_persona_id, hts]

/-- Witness for C9 at concrete streams 1 and 2. -/
theorem sticky_persona_frame_witness :
    get_sticky_persona_for_stream 1
        (set_compose_persona_id (some 7) (some 1) initial_personas_state) = some 7
    ∧ get_sticky_persona_for_stream 2
        (set_compose_persona_id (some 7) (some 1) initial_personas_state)
        = get_sticky_persona_for_stream 2 initial_personas_state
    ∧ ∀ u : Nat, get_sticky_persona_for_stream u initial_personas_state = none :=
  sticky_persona_frame initial_personas_state (some 7) 1 2 (by decide)

/-! ## Claim C10: puppet-aware pill module refines the plain module -/

/-- C10: on inputs without puppets, the puppet-aware whisper-recipient
module behaves exactly like the plain user/group module:
`set_from_user_and_group_ids` agrees with `set_from_all_ids` at an empty
puppet list and with the plain module's `set_from_user_and_group_ids`,
producing the same pills and the same compose-state recipients. -/
theorem puppet_free_refinement (env : PillEnv) (user_ids group_ids : List Nat)
    (st : WhisperState) :
    PuppetAware.set_from_user_and_group_ids env user_ids group_ids st
        = PuppetAware.set_from_all_ids env user_ids group_ids [] st
    ∧ PuppetAware.set_from_user_and_group_ids env user_ids group_ids st
        = PlainPill.set_from_user_and_group_ids env user_ids group_ids st := by
  have hpup : ∀ x : WhisperState, PuppetAware.set_from_puppet_ids env [] x = x := by
    intro x
    unfold PuppetAware.set_from_puppet_ids
    cases hx : x.current_stream_id <;> simp
  have hu : ∀ (l : List Nat) (x : WhisperState),
      PuppetAware.set_from_user_ids env l x = PlainPill.set_from_user_ids env l x :=
    fun _ _ => rfl
  have hg : ∀ (l : List Nat) (x : WhisperState),
      PuppetAware.set_from_group_ids env l x = PlainPill.set_from_group_ids env l x :=
    fun _ _ => rfl
  refine ⟨rfl, ?_⟩
  show PuppetAware.set_from_all_ids env user_ids group_ids [] st = _
  simp only [PuppetAware.set_from_all_ids, PlainPill.set_from_user_and_group_ids,
    hpup, hu, hg]

/-! ## Claim C6: missing persona references reset to the default identity -/

/-- C6: a compose selection pointing at a persona that is not in the
persona list is reset to null by the selector refresh; and a remove event
for the selected persona resets the selection to null while removing the
persona from the list, so the selection never dangles. -/
theorem missing_persona_selection_reset :
    (∀ (st : ComposeUIState) (pid : Nat),
        st.personas.current_compose_persona_id = some pid →
        (∀ p ∈ st.personas.my_personas, p.id ≠ pid) →
        (update_selector_display st).personas.current_compose_persona_id = none)
    ∧ (∀ (pst : PersonasState) (rid : Nat), rid ≠ 0 →
        pst.current_compose_persona_id = some rid →
        (handle_persona_event ⟨"remove", none, some rid⟩ pst).current_compose_persona_id
            = none
        ∧ ∀ p ∈ (handle_persona_event ⟨"remove", none, some rid⟩ pst).my_personas,
            p.id ≠ rid) := by
  constructor
  · intro st pid hsel habsent
    have hf : st.personas.my_personas.find? (fun p => p.id == pid) = none := by
      rw [List.find?_eq_none]
      intro p hp
      simp [habsent p hp]
    rw [update_selector_display_of_missing st pid hsel hf]
    exact set_compose_persona_id_current _ _ _
  · intro pst rid hrid hsel
    unfold handle_persona_event
    dsimp only
    rw [if_neg (by decide), if_neg (by decide), if_pos rfl]
    rw [if_neg hrid]
    simp only [hsel, if_pos rfl]
    refine ⟨rfl, ?_⟩
    intro p hp
    have := List.of_mem_filter hp
    simpa using this

/-- Witness for C6: the dangling selection 9 over a single persona 7 is
reset by the selector refresh, and removing the selected persona 9 resets
the selection. -/
theorem missing_persona_selection_reset_witness :
    (update_selector_display demo_dangling_state).personas.current_compose_persona_id = none
    ∧ (handle_persona_event ⟨"remove", none, some 9⟩
        demo_personas_state).current_compose_persona_id = none :=
  ⟨missing_persona_selection_reset.1 demo_dangling_state 9 rfl (by decide),
   (missing_persona_selection_reset.2 demo_personas_state 9 (by decide) rfl).1⟩

/-! ## Claim C7: empty persona list hides the compose selector -/

/-- C7: once the persona list has been fetched, updating the compose box
for a stream hides the persona selector when the list is empty and shows
it when the list is non-empty. -/
theorem empty_personas_hide_selector (st : ComposeUIState) (sid : Nat)
    (hf : st.personas.my_personas_fetched = true) :
    (st.personas.my_personas = [] →
        (update_for_stream (some sid) st).selector_visible = false)
    ∧ (st.personas.my_personas ≠ [] →
        (update_for_stream (some sid) st).selector_visible = true) := by
  constructor
  · intro hempty
    unfold update_for_stream
    simp only [hf, hempty]
    rfl
  · intro hne
    have hlen : st.personas.my_personas.length ≠ 0 := by
      simpa [List.length_eq_zero] using hne
    unfold update_for_stream
    simp only [hf]
    rw [if_neg (by simp), if_neg hlen]
    cases hsticky : get_sticky_persona_for_stream sid (show_selector st).personas with
    | none =>
        simp only [hsticky]
        rw [update_selector_display_selector_visible]
        rfl
    | some pid =>
        simp only [hsticky]
        rw [update_selector_display_selector_visible]
        rfl

/-- Witness for C7: the selector is hidden for a fetched empty list and
shown for a fetched two-persona list. -/
theorem empty_personas_hide_selector_witness :
    (update_for_stream (some 3) demo_no_personas_state).selector_visible = false
    ∧ (update_for_stream (some 3) demo_compose_state).selector_visible = true :=
  ⟨(empty_personas_hide_selector demo_no_personas_state 3 rfl).1 rfl,
   (empty_personas_hide_selector demo_compose_state 3 rfl).2 (by simp [demo_compose_state])⟩

/-! ## Claim C5: sender headers of persona messages -/

theorem append_message_getLast? (rendered : List (StageMessage × Bool)) (m : StageMessage) :
    (append_message rendered m).getLast?
      = some (m, dialogue_shows_header true (is_consecutive (rendered.getLast?.map Prod.fst) m)) := by
  unfold append_message
  exact List.getLast?_concat _

theorem foldl_append_message (msgs : List StageMessage) :
    ∀ acc : List (StageMessage × Bool),
      msgs.foldl append_message acc
        = acc ++ msgs.zip (header_flags (acc.getLast?.map Prod.fst) msgs) := by
  induction msgs with
  | nil => intro acc; simp [header_flags]
  | cons m rest ih =>
      intro acc
      rw [List.foldl_cons, ih (append_message acc m), append_message_getLast?]
      show _ = acc ++ (m, _) :: rest.zip (header_flags (some m) rest)
      unfold append_message
      rw [List.append_assoc]
      rfl

theorem header_flags_getElem? (msgs : List StageMessage) :
    ∀ (prev : Option StageMessage) (i : Nat) (h : i + 1 < msgs.length),
      (header_flags prev msgs)[i + 1]?
        = some (dialogue_shows_header true
            (is_consecutive (some (msgs.get ⟨i, by omega⟩)) (msgs.get ⟨i + 1, h⟩))) := by
  induction msgs with
  | nil => intro prev i h; simp at h
  | cons m rest ih =>
      intro prev i h
      cases i with
      | zero =>
          cases rest with
          | nil => simp at h
          | cons r rest2 => simp [header_flags]
      | succ i =>
          have h2 : i + 1 < rest.length := by
            simpa [Nat.succ_lt_succ_iff] using h
          have hflags : header_flags prev (m :: rest)
              = dialogue_shows_header true (is_consecutive prev m)
                  :: header_flags (some m) rest := rfl
          rw [hflags, List.getElem?_cons_succ, ih (some m) i h2]
          rfl

/-- C5: the incrementally built rendering (messages appended one at a
time, each header flag computed against the previous message) equals the
rendering recomputed from scratch after a page reload; and whenever two
adjacent messages are sent under different identities (different real
sender or different persona), the later one renders its own sender
header — different identities are never collapsed. -/
theorem persona_headers_no_collapse (msgs : List StageMessage) :
    render_incremental msgs = msgs.zip (render_headers msgs)
    ∧ ∀ (i : Nat) (h : i + 1 < msgs.length),
        ((msgs.get ⟨i, by omega⟩).sender_user_id ≠ (msgs.get ⟨i + 1, h⟩).sender_user_id
            ∨ (msgs.get ⟨i, by omega⟩).persona_id ≠ (msgs.get ⟨i + 1, h⟩).persona_id) →
        (render_headers msgs)[i + 1]? = some true := by
  constructor
  · have hfold := foldl_append_message msgs []
    simpa [render_incremental, render_headers] using hfold
  · intro i h hne
    rw [render_headers, header_flags_getElem? msgs none i h]
    have hcons : is_consecutive (some (msgs.get ⟨i, by omega⟩)) (msgs.get ⟨i + 1, h⟩) = false := by
      unfold is_consecutive
      simp only [List.get_eq_getElem] at hne ⊢
      rcases hne with hne | hne <;> simp [hne]
    rw [hcons]
    rfl

/-- Witness for C5: in the concrete self/Gandalf/Frodo/self/Gandalf
topic, the second message renders its own header, and the incremental
rendering matches the recomputed one. -/
theorem persona_headers_no_collapse_witness :
    (render_headers demo_stage_messages)[1]? = some true
    ∧ render_incremental demo_stage_messages
        = demo_stage_messages.zip (render_headers demo_stage_messages) :=
  ⟨(persona_headers_no_collapse demo_stage_messages).2 0 (by decide) (Or.inr (by decide)),
   (persona_headers_no_collapse demo_stage_messages).1⟩

/-! ## Claim C8: cycling through personas -/

theorem find_index_id_self (ps : List MyPersona)
    (hnd : (ps.map MyPersona.id).Nodup) :
    ∀ (i : Nat) (h : i < ps.length),
      find_index (fun q => q.id == ps[i].id) ps = some i := by
  induction ps with
  | nil => intro i h; simp at h
  | cons p rest ih =>
      intro i h
      cases i with
      | zero => simp [find_index]
      | succ i =>
          have hi : i < rest.length := by simpa [Nat.succ_lt_succ_iff] using h
          have hnd' := hnd
          rw [List.map_cons, List.nodup_cons] at hnd'
          obtain ⟨hpnot, hndrest⟩ := hnd'
          have hmem : rest[i].id ∈ rest.map MyPersona.id :=
            List.mem_map_of_mem _ (List.getElem_mem hi)
          have hget : (p :: rest)[i + 1] = rest[i] := List.getElem_cons_succ ..
          have hne : (p.id == (p :: rest)[i + 1].id) = false := by
            rw [hget]
            simp only [beq_eq_false_iff_ne, ne_eq]
            intro heq
            exact hpnot (heq ▸ hmem)
          unfold find_index
          rw [hne]
          simp only [Bool.false_eq_true, if_false]
          rw [hget, ih hndrest i hi]
          rfl

theorem cycle_selection_of_none (ps : List MyPersona) (h : 0 < ps.length) :
    cycle_selection ps none = some (ps[0].id) := by
  cases ps with
  | nil => simp at h
  | cons p rest => rfl

theorem cycle_selection_step_mid (ps : List MyPersona)
    (hnd : (ps.map MyPersona.id).Nodup) (i : Nat) (h : i + 1 < ps.length) :
    cycle_selection ps (some ps[i].id) = some (ps[i + 1].id) := by
  cases ps with
  | nil => simp at h
  | cons p rest =>
      simp only [cycle_selection]
      rw [find_index_id_self (p :: rest) hnd i (by omega)]
      dsimp only
      rw [if_neg (by simp only [List.length_cons] at h ⊢; omega)]
      rw [List.getElem?_eq_getElem h]

theorem cycle_selection_step_last (ps : List MyPersona)
    (hnd : (ps.map MyPersona.id).Nodup) (i : Nat) (h : i + 1 = ps.length) :
    cycle_selection ps (some ps[i].id) = none := by
  cases ps with
  | nil => simp at h
  | cons p rest =>
      simp only [cycle_selection]
      rw [find_index_id_self (p :: rest) hnd i (by omega)]
      dsimp only
      rw [if_pos (by simp only [List.length_cons] at h ⊢; omega)]

theorem cycle_selection_visits (ps : List MyPersona)
    (hnd : (ps.map MyPersona.id).Nodup) :
    ∀ (i : Nat) (h : i < ps.length),
      (cycle_selection ps)^[i + 1] none = some (ps[i].id) := by
  intro i
  induction i with
  | zero =>
      intro h
      rw [Function.iterate_one]
      exact cycle_selection_of_none ps h
  | succ i ih =>
      intro h
      rw [Function.iterate_succ_apply', ih (by omega)]
      exact cycle_selection_step_mid ps hnd i h

theorem cycle_selection_period_none (ps : List MyPersona)
    (hnd : (ps.map MyPersona.id).Nodup) :
    (cycle_selection ps)^[ps.length + 1] none = none := by
  cases hlen : ps.length with
  | zero =>
      have hnil : ps = [] := List.length_eq_zero.mp hlen
      subst hnil
      rfl
  | succ n =>
      rw [Function.iterate_succ_apply', cycle_selection_visits ps hnd n (by omega)]
      exact cycle_selection_step_last ps hnd n (by omega)

theorem cycle_selection_period (ps : List MyPersona)
    (hnd : (ps.map MyPersona.id).Nodup) (s : Option Nat)
    (hs : s = none ∨ ∃ p ∈ ps, s = some p.id) :
    (cycle_selection ps)^[ps.length + 1] s = s := by
  rcases hs with rfl | ⟨p, hp, rfl⟩
  · exact cycle_selection_period_none ps hnd
  · obtain ⟨i, hi, hpi⟩ := List.getElem_of_mem hp
    subst hpi
    have hv := cycle_selection_visits ps hnd i hi
    rw [← hv, ← Function.iterate_add_apply,
      Nat.add_comm (ps.length + 1) (i + 1), Function.iterate_add_apply,
      cycle_selection_period_none ps hnd]

theorem cycle_persona_my (st : ComposeUIState) :
    (cycle_persona st).personas.my_personas = st.personas.my_personas := by
  unfold cycle_persona
  split
  · rfl
  · split
    · exact set_current_persona_id_my _ _
    · split
      · exact set_current_persona_id_my _ _
      · split
        · exact set_current_persona_id_my _ _
        · split
          · exact set_current_persona_id_my _ _
          · rfl

theorem cycle_persona_selection (st : ComposeUIState) :
    (cycle_persona st).personas.current_compose_persona_id
      = cycle_selection st.personas.my_personas
          st.personas.current_compose_persona_id := by
  unfold cycle_persona cycle_selection
  split
  · rfl
  · rename_i p tl heqmy
    split
    · apply set_current_persona_id_selection_some
      exact ⟨p, by rw [heqmy]; exact List.mem_cons_self _ _, rfl⟩
    · rename_i c heqc
      split
      · exact set_current_persona_id_selection_none st
      · rename_i i hfi
        split
        · exact set_current_persona_id_selection_none st
        · split
          · rename_i q hget
            apply set_current_persona_id_selection_some
            exact ⟨q, List.getElem?_mem hget, rfl⟩
          · exact heqc

theorem cycle_persona_iterate_my (st : ComposeUIState) (k : Nat) :
    (cycle_persona^[k] st).personas.my_personas = st.personas.my_personas := by
  induction k with
  | zero => rfl
  | succ k ih => rw [Function.iterate_succ_apply', cycle_persona_my, ih]

theorem cycle_persona_iterate_selection (st : ComposeUIState) (k : Nat) :
    (cycle_persona^[k] st).personas.current_compose_persona_id
      = (cycle_selection st.personas.my_personas)^[k]
          st.personas.current_compose_persona_id := by
  induction k with
  | zero => rfl
  | succ k ih =>
      rw [Function.iterate_succ_apply', Function.iterate_succ_apply',
        cycle_persona_selection, cycle_persona_iterate_my, ih]

theorem cycle_persona_empty (st : ComposeUIState)
    (h : st.personas.my_personas = []) : cycle_persona st = st := by
  unfold cycle_persona
  rw [h]

/-- C8: with a persona list whose ids are distinct, cycling from
"Yourself" visits the personas in list order and returns to "Yourself";
applying `cycle_persona` length-plus-one times from any selection in the
cycle restores that selection; and with no personas `cycle_persona`
leaves the state unchanged. -/
theorem cycle_persona_cycles (st : ComposeUIState)
    (hnd : (st.personas.my_personas.map MyPersona.id).Nodup) :
    (st.personas.my_personas = [] → cycle_persona st = st)
    ∧ (st.personas.current_compose_persona_id = none →
        ∀ (i : Nat) (h : i < st.personas.my_personas.length),
          (cycle_persona^[i + 1] st).personas.current_compose_persona_id
            = some (st.personas.my_personas[i].id))
    ∧ ((st.personas.current_compose_persona_id = none
          ∨ ∃ p ∈ st.personas.my_personas,
              st.personas.current_compose_persona_id = some p.id) →
        (cycle_persona^[st.personas.my_personas.length + 1]
            st).personas.current_compose_persona_id
          = st.personas.current_compose_persona_id) := by
  refine ⟨cycle_persona_empty st, ?_, ?_⟩
  · intro hsel i h
    rw [cycle_persona_iterate_selection, hsel]
    exact cycle_selection_visits _ hnd i h
  · intro hs
    rw [cycle_persona_iterate_selection]
    exact cycle_selection_period _ hnd _ hs

/-- Witness for C8: on the concrete two-persona state with selection
"Yourself", three invocations restore the selection, and the first two
visit personas 7 and 9 in order. -/
theorem cycle_persona_cycles_witness :
    (cycle_persona^[3] demo_compose_state).personas.current_compose_persona_id
        = demo_compose_state.personas.current_compose_persona_id
    ∧ (cycle_persona^[1] demo_compose_state).personas.current_compose_persona_id = some 7
    ∧ (cycle_persona^[2] demo_compose_state).personas.current_compose_persona_id = some 9 :=
  ⟨(cycle_persona_cycles demo_compose_state (by decide)).2.2 (Or.inl rfl),
   (cycle_persona_cycles demo_compose_state (by decide)).2.1 rfl 0 (by decide),
   (cycle_persona_cycles demo_compose_state (by decide)).2.1 rfl 1 (by decide)⟩

end Tulip
